import Mathlib

/-!
Verification of the Sentinel backend supervisor
(src/sentinel-web/src-tauri/src/main.rs).

The supervisor launches a Python backend process, probes a health endpoint
until ready (up to a fixed number of attempts separated by fixed delays),
stores the process handle in a mutually-exclusive slot, and kills and reaps
the process on application exit.

The embedding below models:
  * one HTTP probe outcome (`ProbeResult`) as seen by the `match` in
    `wait_for_backend`;
  * the readiness loop `wait_for_backend` as a pure function of a health
    oracle, returning the Rust function's `Result` together with the trace
    of probe and sleep events it performs;
  * the supervisor slot (`BackendProcess`) and `kill_backend` as a pure
    function returning the new slot state, the list of OS-level actions
    (kill / wait syscalls) performed, and the error reported (if any);
  * the spawn configuration computed by `launch_backend`;
  * the startup sequence of `main`'s async task, combining launch outcome,
    slot update and readiness loop.
-/

namespace Sentinel

/-- Outcome of one HTTP probe as seen by the readiness loop: either the
`Ok(response)` branch of `client.get(health_url).send().await`, carrying the
numeric HTTP status code, or the `Err(e)` branch (transport-level failure). -/
inductive ProbeResult where
  | ok (status : Nat)
  | err (msg : String)
deriving DecidableEq, Repr

/-- `response.status().is_success()` of reqwest: status in 200..=299. -/
def statusIsSuccess (s : Nat) : Bool :=
  decide (200 ≤ s) && decide (s < 300)

/-- The guard of the first match arm in `wait_for_backend`:
`Ok(response) if response.status().is_success()`.  A response with any other
status, or a transport error, falls to the arms that let the loop continue. -/
def attemptSucceeds : ProbeResult → Bool
  | .ok s => statusIsSuccess s
  | .err _ => false

/-- Observable events of the readiness loop: issuing the HTTP probe of
attempt `i` (0-based), and `tokio::time::sleep` for `ms` milliseconds. -/
inductive Event where
  | probe (i : Nat)
  | sleep (ms : Nat)
deriving DecidableEq, Repr

/-- The error string returned when the attempt budget is exhausted. -/
def readinessTimeoutMsg : String :=
  "Backend failed to start after maximum attempts"

/-- The body of `wait_for_backend`'s `for i in 0..max_attempts` loop,
with `fuel` remaining iterations and `i` the current attempt index.
On a successful probe the function returns `Ok(())` at once; otherwise it
sleeps 500 ms and continues with the next attempt.  The second component is
the trace of probe and sleep events performed. -/
def waitAux (health : Nat → ProbeResult) : Nat → Nat → Except String Unit × List Event
  | 0, _ => (.error readinessTimeoutMsg, [])
  | fuel + 1, i =>
    if attemptSucceeds (health i) then
      (.ok (), [.probe i])
    else
      let rest := waitAux health fuel (i + 1)
      (rest.1, .probe i :: .sleep 500 :: rest.2)

/-- `wait_for_backend(max_attempts)`, as a function of the health oracle
giving the outcome of each probe attempt. -/
def wait_for_backend (health : Nat → ProbeResult) (max_attempts : Nat) :
    Except String Unit × List Event :=
  waitAux health max_attempts 0

/-- Whether an event is a probe attempt. -/
def isProbe : Event → Bool
  | .probe _ => true
  | .sleep _ => false

/-- Number of probe attempts recorded in a trace. -/
def numAttempts (tr : List Event) : Nat := (tr.filter isProbe).length

/-- Number of sleep (delay) events recorded in a trace. -/
def numSleeps (tr : List Event) : Nat := (tr.filter fun e => !isProbe e).length

/-- The trace of `d` consecutive failed attempts starting at index `i`:
each probe is immediately followed by the fixed 500 ms delay. -/
def failBlocks (i : Nat) : Nat → List Event
  | 0 => []
  | d + 1 => .probe i :: .sleep 500 :: failBlocks (i + 1) d

theorem numAttempts_append (l1 l2 : List Event) :
    numAttempts (l1 ++ l2) = numAttempts l1 + numAttempts l2 := by
  simp [numAttempts, List.filter_append]

theorem numAttempts_failBlocks : ∀ i d, numAttempts (failBlocks i d) = d := by
  intro i d
  induction d generalizing i with
  | zero => rfl
  | succ d ih => simp [failBlocks, numAttempts, isProbe, List.filter] at *; exact ih (i + 1)

theorem numSleeps_failBlocks : ∀ i d, numSleeps (failBlocks i d) = d := by
  intro i d
  induction d generalizing i with
  | zero => rfl
  | succ d ih => simp [failBlocks, numSleeps, isProbe, List.filter] at *; exact ih (i + 1)

/-- If every attempt in the remaining budget fails, the loop consumes the
whole budget, sleeps after each failed attempt, and returns the timeout
error. -/
theorem waitAux_all_fail (health : Nat → ProbeResult) :
    ∀ fuel i, (∀ j, i ≤ j → j < i + fuel → attemptSucceeds (health j) = false) →
      waitAux health fuel i = (.error readinessTimeoutMsg, failBlocks i fuel) := by
  intro fuel
  induction fuel with
  | zero => intro i _; rfl
  | succ f ih =>
    intro i h
    have h0 : attemptSucceeds (health i) = false := h i (Nat.le_refl i) (by omega)
    have hr := ih (i + 1) (fun j hj1 hj2 => h j (by omega) (by omega))
    simp [waitAux, h0, hr, failBlocks]

/-- If the first successful attempt at or after `i` is attempt `i + d` and
the budget reaches it, the loop performs `d` failed attempts (each followed
by the delay), then the successful probe, and returns `Ok(())`. -/
theorem waitAux_first_success (health : Nat → ProbeResult) :
    ∀ d fuel i, d < fuel → attemptSucceeds (health (i + d)) = true →
      (∀ j, i ≤ j → j < i + d → attemptSucceeds (health j) = false) →
      waitAux health fuel i = (.ok (), failBlocks i d ++ [.probe (i + d)]) := by
  intro d
  induction d with
  | zero =>
    intro fuel i hlt hs _
    obtain ⟨f, rfl⟩ : ∃ f, fuel = f + 1 := ⟨fuel - 1, by omega⟩
    simpa [waitAux, failBlocks] using hs
  | succ d ih =>
    intro fuel i hlt hs hf
    obtain ⟨f, rfl⟩ : ∃ f, fuel = f + 1 := ⟨fuel - 1, by omega⟩
    have h0 : attemptSucceeds (health i) = false := hf i (Nat.le_refl i) (by omega)
    have he : (i + 1) + d = i + (d + 1) := by omega
    have hr := ih f (i + 1) (by omega) (by rw [he]; exact hs)
      (fun j hj1 hj2 => hf j (by omega) (by omega))
    simp [waitAux, h0, hr, failBlocks, he]

/-- A spawned backend process handle (`std::process::Child`): its process
identifier, and the outcome the OS gives for a `kill()` request on this
process (modelled as data carried by the handle). -/
structure Child where
  pid : Nat
  killOutcome : Except String Unit
deriving Repr

/-- `struct BackendProcess { child: Option<Child> }`: the supervisor state
slot, holding at most one handle. -/
structure BackendProcess where
  child : Option Child
deriving Repr

/-- OS-level actions performed during shutdown: the termination request
`child.kill()` and the reaping call `child.wait()`. -/
inductive OsAction where
  | kill (pid : Nat)
  | wait (pid : Nat)
deriving DecidableEq, Repr

/-- Result of one `kill_backend` call: the slot state afterwards, the
OS-level actions performed before returning, in order, and the error text
written to stderr (if any). -/
structure KillResult where
  state : BackendProcess
  actions : List OsAction
  reported : Option String
deriving Repr

/-- `kill_backend`: `backend.child.take()` empties the slot; when a handle
was present, `child.kill()` is requested; on success the process is reaped
with `child.wait()` before returning, on failure the error is reported and
neither a wait nor a retry happens; when the slot is empty nothing is
done. -/
def kill_backend (b : BackendProcess) : KillResult :=
  match b.child with
  | some c =>
    match c.killOutcome with
    | .ok _ =>
      { state := ⟨none⟩, actions := [.kill c.pid, .wait c.pid], reported := none }
    | .error e =>
      { state := ⟨none⟩, actions := [.kill c.pid],
        reported := some ("Failed to kill backend process: " ++ e) }
  | none => { state := ⟨none⟩, actions := [], reported := none }

/-- The compile-time inputs of `launch_backend`: the target OS family
(`cfg!(target_os = "windows")`) and the build mode
(`cfg!(debug_assertions)`). -/
structure OsConfig where
  windows : Bool
  debugAssertions : Bool
deriving DecidableEq, Repr

/-- The spawn configuration handed to `Command`: program name, argument
vector, working directory, and whether stdout/stderr are piped. -/
structure SpawnConfig where
  cmd : String
  args : List String
  cwd : String
  stdoutPiped : Bool
  stderrPiped : Bool
deriving DecidableEq, Repr

/-- The configuration `launch_backend` builds: interpreter name chosen by
OS family, the hard-coded uvicorn argument vector, working directory chosen
by build mode, and both output streams piped (`Stdio::piped()`). -/
def launch_backend_config (os : OsConfig) : SpawnConfig :=
  { cmd := if os.windows then "python" else "python3"
  , args := ["-m", "uvicorn", "sentinel_core.api.main:app",
             "--host", "127.0.0.1", "--port", "8000", "--log-level", "info"]
  , cwd := if os.debugAssertions then "../../sentinel-core" else "../sentinel-core"
  , stdoutPiped := true
  , stderrPiped := true }

/-- Result of the startup task spawned in `main`'s setup hook: the slot
state afterwards, the readiness-loop trace performed, and the error text
written to stderr (if any). -/
structure StartupResult where
  state : BackendProcess
  trace : List Event
  reported : Option String
deriving Repr

/-- The async startup task of `main`: on launch failure the error is
reported and nothing else happens (the slot, initially empty, is never
written and no probe runs); on launch success the handle is stored and
`wait_for_backend(30)` runs, whose failure is reported but does not touch
the slot. -/
def startup_sequence (launch : Except String Child) (health : Nat → ProbeResult) :
    StartupResult :=
  match launch with
  | .error e =>
    { state := ⟨none⟩, trace := [],
      reported := some ("Failed to launch backend: " ++ e) }
  | .ok c =>
    match (wait_for_backend health 30).1 with
    | .ok _ =>
      { state := ⟨some c⟩, trace := (wait_for_backend health 30).2, reported := none }
    | .error e =>
      { state := ⟨some c⟩, trace := (wait_for_backend health 30).2,
        reported := some ("Backend health check failed: " ++ e) }

/-- C1: with the max-attempt budget of 30, if the health endpoint first
returns an HTTP success status on probe attempt `k` (1-based, 1 ≤ k ≤ 30),
`wait_for_backend` performs exactly `k` probe attempts and returns success;
if no attempt ever succeeds, it performs exactly 30 probe attempts and
returns the readiness-timeout error. -/
theorem C1_readiness_budget (health : Nat → ProbeResult) :
    (∀ k : Nat, 1 ≤ k → k ≤ 30 →
      attemptSucceeds (health (k - 1)) = true →
      (∀ j, j < k - 1 → attemptSucceeds (health j) = false) →
      (wait_for_backend health 30).1 = .ok () ∧
        numAttempts (wait_for_backend health 30).2 = k) ∧
    ((∀ j, j < 30 → attemptSucceeds (health j) = false) →
      (wait_for_backend health 30).1 = .error readinessTimeoutMsg ∧
        numAttempts (wait_for_backend health 30).2 = 30) := by
  constructor
  · intro k hk1 hk30 hs hf
    have hw := waitAux_first_success health (k - 1) 30 0 (by omega)
      (by simpa using hs) (fun j hj1 hj2 => hf j (by omega))
    unfold wait_for_backend
    rw [hw]
    refine ⟨rfl, ?_⟩
    rw [numAttempts_append, numAttempts_failBlocks]
    have h1 : numAttempts [Event.probe (0 + (k - 1))] = 1 := rfl
    rw [h1]
    omega
  · intro hf
    have hw := waitAux_all_fail health 30 0 (fun j hj1 hj2 => hf j (by omega))
    unfold wait_for_backend
    rw [hw]
    exact ⟨rfl, numAttempts_failBlocks 0 30⟩

/-- Witness for C1: success on the third attempt yields exactly 3 probes. -/
theorem C1_readiness_budget_witness :
    (wait_for_backend (fun j => if j = 2 then .ok 200 else .err "connection refused") 30).1
        = .ok () ∧
      numAttempts
        ((wait_for_backend (fun j => if j = 2 then .ok 200 else .err "connection refused") 30).2)
        = 3 :=
  (C1_readiness_budget _).1 3 (by decide) (by decide) (by decide) (by decide)

/-- C2: the supervisor slot holds at most one handle (it is an `Option`);
after a shutdown the slot is empty, and a second shutdown call observes the
empty slot and performs no OS-level action and reports nothing. -/
theorem C2_shutdown_idempotent (b : BackendProcess) :
    (kill_backend b).state.child = none ∧
    (kill_backend (kill_backend b).state).actions = [] ∧
    (kill_backend (kill_backend b).state).reported = none := by
  rcases b with ⟨_ | ⟨p, ko⟩⟩
  · exact ⟨rfl, rfl, rfl⟩
  · rcases ko with e | u <;> exact ⟨rfl, rfl, rfl⟩

/-- C3: whenever shutdown runs while a handle is present, a termination
request is issued to the process; if it succeeds the process is reaped
(waited on) before `kill_backend` returns; if it fails the error is
reported and no wait and no retry occur. -/
theorem C3_terminate_and_reap (b : BackendProcess) (c : Child) (h : b.child = some c) :
    (∃ rest, (kill_backend b).actions = OsAction.kill c.pid :: rest) ∧
    (c.killOutcome = .ok () → (kill_backend b).actions = [.kill c.pid, .wait c.pid]) ∧
    (∀ e, c.killOutcome = .error e →
      (kill_backend b).actions = [.kill c.pid] ∧
        (kill_backend b).reported = some ("Failed to kill backend process: " ++ e)) := by
  refine ⟨?_, ?_, ?_⟩
  · rcases hk : c.killOutcome with e | u
    · exact ⟨[], by simp [kill_backend, h, hk]⟩
    · exact ⟨[.wait c.pid], by simp [kill_backend, h, hk]⟩
  · intro hk
    simp [kill_backend, h, hk]
  · intro e hk
    simp [kill_backend, h, hk]

/-- Witness for C3: killing a present handle with pid 42 whose kill request
succeeds performs the kill and then the reaping wait. -/
theorem C3_terminate_and_reap_witness :
    (kill_backend ⟨some ⟨42, .ok ()⟩⟩).actions = [.kill 42, .wait 42] :=
  (C3_terminate_and_reap ⟨some ⟨42, .ok ()⟩⟩ ⟨42, .ok ()⟩ rfl).2.1 rfl

/-- C4: when launch fails, the error is reported, the slot remains empty,
no probe attempt and no delay is performed, and a subsequent shutdown
performs no OS-level action. -/
theorem C4_launch_failure (e : String) (health : Nat → ProbeResult) :
    (startup_sequence (.error e) health).reported =
        some ("Failed to launch backend: " ++ e) ∧
    (startup_sequence (.error e) health).state.child = none ∧
    numAttempts (startup_sequence (.error e) health).trace = 0 ∧
    numSleeps (startup_sequence (.error e) health).trace = 0 ∧
    (kill_backend (startup_sequence (.error e) health).state).actions = [] :=
  ⟨rfl, rfl, rfl, rfl, rfl⟩

/-- C5: classification of one probe attempt: a response with a 2xx status
terminates the loop with success; a response with any non-2xx status, or a
transport-level failure, makes the loop continue with the next attempt. -/
theorem C5_probe_classification (health : Nat → ProbeResult) (fuel i : Nat) :
    (∀ s, health i = .ok s → 200 ≤ s → s < 300 →
      waitAux health (fuel + 1) i = (.ok (), [.probe i])) ∧
    (∀ s, health i = .ok s → ¬(200 ≤ s ∧ s < 300) →
      waitAux health (fuel + 1) i =
        ((waitAux health fuel (i + 1)).1,
          .probe i :: .sleep 500 :: (waitAux health fuel (i + 1)).2)) ∧
    (∀ e, health i = .err e →
      waitAux health (fuel + 1) i =
        ((waitAux health fuel (i + 1)).1,
          .probe i :: .sleep 500 :: (waitAux health fuel (i + 1)).2)) := by
  refine ⟨?_, ?_, ?_⟩
  · intro s hs h1 h2
    have ht : attemptSucceeds (health i) = true := by
      simp [hs, attemptSucceeds, statusIsSuccess, h1, h2]
    simp [waitAux, ht]
  · intro s hs hns
    have ht : attemptSucceeds (health i) = false := by
      rw [hs]
      simp only [attemptSucceeds, statusIsSuccess]
      simp only [Bool.and_eq_false_iff, decide_eq_false_iff_not]
      omega
    simp [waitAux, ht]
  · intro e he
    have ht : attemptSucceeds (health i) = false := by rw [he]; rfl
    simp [waitAux, ht]

/-- Witness for C5: a 200 response on the current attempt terminates the
loop at once with success. -/
theorem C5_probe_classification_witness :
    waitAux (fun _ => .ok 200) 1 0 = (.ok (), [.probe 0]) :=
  (C5_probe_classification (fun _ => .ok 200) 0 0).1 200 rfl (by omega) (by omega)

/-- C6: when the readiness loop times out, the stored handle is left
unchanged in the slot, so shutdown cleanup still issues the termination
request for it. -/
theorem C6_timeout_keeps_handle (c : Child) (health : Nat → ProbeResult)
    (h : ∀ j, j < 30 → attemptSucceeds (health j) = false) :
    (startup_sequence (.ok c) health).state.child = some c ∧
    (∃ rest, (kill_backend (startup_sequence (.ok c) health).state).actions =
        OsAction.kill c.pid :: rest) := by
  have hw : wait_for_backend health 30 =
      (.error readinessTimeoutMsg, failBlocks 0 30) :=
    waitAux_all_fail health 30 0 (fun j hj1 hj2 => h j (by omega))
  constructor
  · simp [startup_sequence, hw]
  · rcases hk : c.killOutcome with e | u
    · exact ⟨[], by simp [startup_sequence, hw, kill_backend, hk]⟩
    · exact ⟨[.wait c.pid], by simp [startup_sequence, hw, kill_backend, hk]⟩

/-- Witness for C6: a backend that never answers leaves the pid-7 handle
stored, and shutdown still issues the kill for pid 7. -/
theorem C6_timeout_keeps_handle_witness :
    (startup_sequence (.ok ⟨7, .ok ()⟩) (fun _ => .err "connection refused")).state.child
        = some ⟨7, .ok ()⟩ ∧
      ∃ rest, (kill_backend (startup_sequence (.ok ⟨7, .ok ()⟩)
          (fun _ => .err "connection refused")).state).actions = OsAction.kill 7 :: rest :=
  C6_timeout_keeps_handle ⟨7, .ok ()⟩ _ (fun _ _ => rfl)

/-- C7: `launch_backend` uses a fixed, input-independent configuration: the
OS-specific interpreter name, exactly the hard-coded uvicorn argument
vector, one of two fixed relative working directories selected by build
mode, and piped stdout and stderr. -/
theorem C7_fixed_spawn_config (os : OsConfig) :
    (launch_backend_config os).args =
      ["-m", "uvicorn", "sentinel_core.api.main:app",
       "--host", "127.0.0.1", "--port", "8000", "--log-level", "info"] ∧
    (os.windows = true → (launch_backend_config os).cmd = "python") ∧
    (os.windows = false → (launch_backend_config os).cmd = "python3") ∧
    (os.debugAssertions = true →
      (launch_backend_config os).cwd = "../../sentinel-core") ∧
    (os.debugAssertions = false →
      (launch_backend_config os).cwd = "../sentinel-core") ∧
    (launch_backend_config os).stdoutPiped = true ∧
    (launch_backend_config os).stderrPiped = true ∧
    (∀ os2 : OsConfig,
      (launch_backend_config os).args = (launch_backend_config os2).args) := by
  refine ⟨rfl, ?_, ?_, ?_, ?_, rfl, rfl, fun _ => rfl⟩
  · intro h; simp [launch_backend_config, h]
  · intro h; simp [launch_backend_config, h]
  · intro h; simp [launch_backend_config, h]
  · intro h; simp [launch_backend_config, h]

/-- Witness for C7: on Windows in a debug build, the interpreter is
`python` and the working directory is the development path. -/
theorem C7_fixed_spawn_config_witness :
    (launch_backend_config ⟨true, true⟩).cmd = "python" ∧
      (launch_backend_config ⟨true, true⟩).cwd = "../../sentinel-core" :=
  ⟨(C7_fixed_spawn_config ⟨true, true⟩).2.1 rfl,
    (C7_fixed_spawn_config ⟨true, true⟩).2.2.2.1 rfl⟩

/-- C8: consecutive probe attempts are separated by exactly one fixed
500 ms delay: the trace is a sequence of probe-then-sleep-500 blocks, each
failed attempt immediately followed by the delay, with only a final
successful probe (if any) not followed by a delay. -/
theorem C8_delay_between_attempts (health : Nat → ProbeResult) (n : Nat) :
    ((∀ j, j < n → attemptSucceeds (health j) = false) →
      (wait_for_backend health n).2 = failBlocks 0 n) ∧
    (∀ d, d < n → attemptSucceeds (health d) = true →
      (∀ j, j < d → attemptSucceeds (health j) = false) →
      (wait_for_backend health n).2 = failBlocks 0 d ++ [.probe d]) := by
  constructor
  · intro h
    have hw := waitAux_all_fail health n 0 (fun j hj1 hj2 => h j (by omega))
    unfold wait_for_backend
    rw [hw]
  · intro d hd hs hf
    have hw := waitAux_first_success health d n 0 hd (by simpa using hs)
      (fun j hj1 hj2 => hf j (by omega))
    unfold wait_for_backend
    rw [hw]
    simp

/-- Witness for C8: two failing attempts produce probe, delay, probe,
delay. -/
theorem C8_delay_between_attempts_witness :
    (wait_for_backend (fun _ => .ok 503) 2).2 =
      [.probe 0, .sleep 500, .probe 1, .sleep 500] :=
  (C8_delay_between_attempts (fun _ => .ok 503) 2).1 (fun j hj => by decide)

/-- C9: `kill_backend` empties the slot unconditionally: even when the kill
request fails, the slot is empty afterwards and a subsequent shutdown call
performs no OS-level action. -/
theorem C9_slot_emptied_even_on_failure (b : BackendProcess) (c : Child) (e : String)
    (h : b.child = some c) (hk : c.killOutcome = .error e) :
    (kill_backend b).state.child = none ∧
    (kill_backend (kill_backend b).state).actions = [] ∧
    (kill_backend (kill_backend b).state).state.child = none := by
  simp [kill_backend, h, hk]

/-- Witness for C9: a failing kill request on pid 7 still leaves the slot
empty and a second shutdown does nothing. -/
theorem C9_slot_emptied_witness :
    (kill_backend ⟨some ⟨7, .error "no such process"⟩⟩).state.child = none ∧
      (kill_backend (kill_backend ⟨some ⟨7, .error "no such process"⟩⟩).state).actions = [] ∧
      (kill_backend (kill_backend ⟨some ⟨7, .error "no such process"⟩⟩).state).state.child
        = none :=
  C9_slot_emptied_even_on_failure ⟨some ⟨7, .error "no such process"⟩⟩
    ⟨7, .error "no such process"⟩ "no such process" rfl rfl

/-- C10: with `max_attempts = 0` the loop performs zero probe attempts and
zero delays and immediately returns the readiness-timeout error. -/
theorem C10_zero_budget (health : Nat → ProbeResult) :
    (wait_for_backend health 0).1 = .error readinessTimeoutMsg ∧
    numAttempts (wait_for_backend health 0).2 = 0 ∧
    numSleeps (wait_for_backend health 0).2 = 0 ∧
    (wait_for_backend health 0).2 = [] :=
  ⟨rfl, rfl, rfl, rfl⟩

end Sentinel
